import Mathlib

/-!
Verification of the AI Email Assistant Suite MCP server (src/mcp_starter.py).

The file embeds the repository's credential validator, tool handlers, prompt
templates, identity tool and startup checks as executable Lean definitions,
together with a dispatcher and argument validator modelled from the
specification for the framework layer that is not part of the repository's
source. Theorems below settle the spec claims against these definitions.
-/

/-- A single apostrophe character, used inside prompt and description strings. -/
def squote : String := String.mk [Char.ofNat 39]

/-- The access token record issued by the auth provider
(mcp.server.auth.provider.AccessToken as used in src/mcp_starter.py line 35). -/
structure AccessToken where
  token : String
  client_id : String
  scopes : List String
  expires_at : Option Nat
deriving Repr, DecidableEq

/-- SimpleBearerAuthProvider.load_access_token (src/mcp_starter.py lines 33-36):
returns an AccessToken with client id puch-client, wildcard scopes and no
expiry when the presented token equals the configured one, and none otherwise. -/
def load_access_token (configured presented : String) : Option AccessToken :=
  if presented = configured then
    some { token := presented, client_id := "puch-client", scopes := ["*"], expires_at := none }
  else
    none

/-- RichToolDescription (src/mcp_starter.py lines 39-42): a pydantic model with
description, use-when guidance and optional side-effect note. It is defined in
the source but never passed to any tool registration in this file. -/
structure RichToolDescription where
  description : String
  use_when : String
  side_effects : Option String
deriving Repr, DecidableEq

/-- JSON-RPC internal error code, mcp.types.INTERNAL_ERROR. -/
def INTERNAL_ERROR : Int := -32603

/-- ErrorData carried by an McpError (mcp.ErrorData). -/
structure ErrorData where
  code : Int
  message : String
deriving Repr, DecidableEq

/-- A provider call is modelled as a function from the prompt to either the
response text or the textual representation (repr) of the raised exception. -/
abbrev Provider := String → Except String String

/-- make_gemini_call (src/mcp_starter.py lines 56-65): performs one provider
call; on any exception it raises McpError with code INTERNAL_ERROR and message
built from the fixed prefix and the repr of the underlying exception. The
raised McpError is modelled as the error branch of the result. -/
def make_gemini_call (provider : Provider) (prompt : String) : Except ErrorData String :=
  match provider prompt with
  | Except.ok text => Except.ok text
  | Except.error e =>
      Except.error { code := INTERNAL_ERROR, message := "Failed to process with Google AI: " ++ e }

/-- Drop every leading plus character from a character list. -/
def dropLeadingPlus : List Char → List Char
  | [] => []
  | c :: cs => if c = '+' then dropLeadingPlus cs else c :: cs

/-- Python str.lstrip applied with the plus character, as in
MY_NUMBER.lstrip in src/mcp_starter.py line 52. -/
def lstripPlus (s : String) : String := String.mk (dropLeadingPlus s.data)

/-- The validate tool handler (src/mcp_starter.py lines 50-53): if the
configured identity string is truthy (non-empty) return it with leading plus
characters stripped, else return the empty string. -/
def validateHandler (myNumber : String) : String :=
  if myNumber ≠ "" then lstripPlus myNumber else ""

/-- Prompt template of analyze_email_tone (src/mcp_starter.py line 74). -/
def analyze_email_tone_prompt (email_draft : String) : String :=
  "Please analyze the tone of the following email draft. Describe the current tone and provide a bulleted list of suggestions for improvement.\n\nDraft:\n---\n" ++ email_draft

/-- Prompt template of rewrite_email (src/mcp_starter.py line 83). -/
def rewrite_email_prompt (email_draft target_tone : String) : String :=
  "Please rewrite the following email draft to have a " ++ squote ++ target_tone ++ squote ++
    " tone. Provide only the rewritten version.\n\nDraft:\n---\n" ++ email_draft

/-- Prompt template of shorten_email (src/mcp_starter.py line 91). -/
def shorten_email_prompt (email_draft : String) : String :=
  "Please shorten the following email to be as concise as possible while retaining the core message. Provide only the shortened version.\n\nDraft:\n---\n" ++ email_draft

/-- Prompt template of expand_from_bullets (src/mcp_starter.py line 100). -/
def expand_from_bullets_prompt (bullet_points goal : String) : String :=
  "Please expand the following bullet points into a well-formatted email. The goal of the email is: " ++
    goal ++ ". Provide only the full email text.\n\nBullet Points:\n---\n" ++ bullet_points

/-- Declared parameter of a tool schema (name, human description, required). -/
structure ParameterSpec where
  name : String
  description : String
  required : Bool
deriving Repr, DecidableEq

/-- Validation failure kinds of the argument validator. -/
inductive ValidationError where
  | MissingArgument (name : String)
  | UnknownArgument (name : String)
deriving Repr, DecidableEq

/-- First required parameter of the schema that is absent from the argument map. -/
def firstMissing (schema : List ParameterSpec) (args : List (String × String)) : Option String :=
  match schema with
  | [] => none
  | p :: ps =>
      if p.required && (args.lookup p.name).isNone then some p.name
      else firstMissing ps args

/-- First argument name that is not declared in the schema. -/
def firstUnknown (schema : List ParameterSpec) : List (String × String) → Option String
  | [] => none
  | (k, _) :: rest =>
      if (schema.find? (fun p => p.name == k)).isNone then some k
      else firstUnknown schema rest

/-- Modelled from the spec: the argument validator of the dispatch layer
(spec section 4.3), which lives in the FastMCP framework and not under src/.
Every required parameter absent from the argument map fails with
MissingArgument; every argument name not declared in the schema fails with
UnknownArgument; otherwise the arguments pass. -/
def validateArgs (schema : List ParameterSpec) (args : List (String × String)) :
    Except ValidationError Unit :=
  match firstMissing schema args with
  | some n => Except.error (ValidationError.MissingArgument n)
  | none =>
      match firstUnknown schema args with
      | some k => Except.error (ValidationError.UnknownArgument k)
      | none => Except.ok ()

/-- Human-readable detail attached to a validation failure. -/
def validationDetail : ValidationError → String
  | ValidationError.MissingArgument n => "missing required argument " ++ n
  | ValidationError.UnknownArgument n => "unknown argument " ++ n

/-- Error taxonomy of the dispatcher (spec section 7). -/
inductive ErrorKind where
  | AuthenticationError
  | UnknownTool
  | InvalidArguments
  | InternalError
deriving Repr, DecidableEq

/-- Result of one invocation: success payload or a structured failure. -/
inductive InvocationResult where
  | Success (payload : String)
  | Failure (kind : ErrorKind) (message : String)
deriving Repr, DecidableEq

/-- A tool handler either makes exactly one provider call on a prompt built
from the arguments and returns the provider text verbatim, or computes its
result purely with no provider call (the validate tool). -/
inductive Handler where
  | viaProvider (mkPrompt : List (String × String) → String)
  | pure (run : List (String × String) → String)

/-- A registered tool: name, description metadata, schema and handler. -/
structure ToolDescriptor where
  name : String
  description : String
  use_when : Option String
  side_effects : Option String
  schema : List ParameterSpec
  handler : Handler

/-- An invocation request: tool name, argument map and presented credential. -/
structure Request where
  toolName : String
  args : List (String × String)
  credential : String

/-- Look up an argument value, defaulting to the empty string; handlers only
read arguments that validation has confirmed present. -/
def argOr (args : List (String × String)) (k : String) : String :=
  (args.lookup k).getD ""

/-- Run a handler on validated arguments; the second component counts provider
calls made during the invocation. -/
def runHandler (provider : Provider) : Handler → List (String × String) → InvocationResult × Nat
  | Handler.pure f, args => (InvocationResult.Success (f args), 0)
  | Handler.viaProvider mk, args =>
      match make_gemini_call provider (mk args) with
      | Except.ok text => (InvocationResult.Success text, 1)
      | Except.error ed => (InvocationResult.Failure ErrorKind.InternalError ed.message, 1)

/-- Modelled from the spec: the dispatcher (spec section 4.4), which lives in
the FastMCP framework and not under src/. It authenticates the request through
the repository's load_access_token, looks up the tool, validates arguments and
runs the handler, converting every failure into a structured result; the
second component counts provider calls. -/
def dispatch (configuredToken : String) (registry : List ToolDescriptor)
    (provider : Provider) (req : Request) : InvocationResult × Nat :=
  match load_access_token configuredToken req.credential with
  | none => (InvocationResult.Failure ErrorKind.AuthenticationError "invalid bearer token", 0)
  | some _ =>
      match registry.find? (fun t => t.name == req.toolName) with
      | none => (InvocationResult.Failure ErrorKind.UnknownTool ("unknown tool " ++ req.toolName), 0)
      | some td =>
          match validateArgs td.schema req.args with
          | Except.error e =>
              (InvocationResult.Failure ErrorKind.InvalidArguments (validationDetail e), 0)
          | Except.ok _ => runHandler provider td.handler req.args

/-- The validate tool (src/mcp_starter.py lines 49-53): registered with no
arguments and no description metadata; returns the identity string. -/
def validateTool (myNumber : String) : ToolDescriptor :=
  { name := "validate", description := "", use_when := none, side_effects := none,
    schema := [],
    handler := Handler.pure (fun _ => validateHandler myNumber) }

/-- analyze_email_tone (src/mcp_starter.py lines 69-75). -/
def analyzeEmailToneTool : ToolDescriptor :=
  { name := "analyze_email_tone",
    description := "Analyzes the tone of a draft email and provides feedback.",
    use_when := none, side_effects := none,
    schema := [{ name := "email_draft",
                 description := "The user" ++ squote ++ "s draft email text.",
                 required := true }],
    handler := Handler.viaProvider (fun args => analyze_email_tone_prompt (argOr args "email_draft")) }

/-- rewrite_email (src/mcp_starter.py lines 77-84). -/
def rewriteEmailTool : ToolDescriptor :=
  { name := "rewrite_email",
    description := "Rewrites an email draft to match a specific target tone.",
    use_when := none, side_effects := none,
    schema := [{ name := "email_draft", description := "The email draft to rewrite.",
                 required := true },
               { name := "target_tone",
                 description := "The desired tone (e.g., Formal, Confident, Friendly).",
                 required := true }],
    handler := Handler.viaProvider
      (fun args => rewrite_email_prompt (argOr args "email_draft") (argOr args "target_tone")) }

/-- shorten_email (src/mcp_starter.py lines 86-92). -/
def shortenEmailTool : ToolDescriptor :=
  { name := "shorten_email",
    description := "Shortens an email draft to make it more concise.",
    use_when := none, side_effects := none,
    schema := [{ name := "email_draft", description := "The email draft to be shortened.",
                 required := true }],
    handler := Handler.viaProvider (fun args => shorten_email_prompt (argOr args "email_draft")) }

/-- expand_from_bullets (src/mcp_starter.py lines 94-101). -/
def expandFromBulletsTool : ToolDescriptor :=
  { name := "expand_from_bullets",
    description := "Expands a list of bullet points into a full, well-formatted email.",
    use_when := none, side_effects := none,
    schema := [{ name := "bullet_points", description := "A list of bullet points or short notes.",
                 required := true },
               { name := "goal",
                 description := "The overall goal or context of the email (e.g., " ++ squote ++
                   "a project update to my manager" ++ squote ++ ").",
                 required := true }],
    handler := Handler.viaProvider
      (fun args => expand_from_bullets_prompt (argOr args "bullet_points") (argOr args "goal")) }

/-- The registry of tools registered by src/mcp_starter.py, in registration
order, parameterized by the configured identity string MY_NUMBER. -/
def srcRegistry (myNumber : String) : List ToolDescriptor :=
  [validateTool myNumber, analyzeEmailToneTool, rewriteEmailTool,
   shortenEmailTool, expandFromBulletsTool]

/-- Modelled from the spec: the analyzeAndRewrite handler (spec section 4.5)
appears in a repository variant not included under src/. It embeds the draft
and target tone in a structured prompt template, makes exactly one provider
call, and returns the provider text verbatim. -/
def analyzeAndRewrite_prompt (draft targetTone : String) : String :=
  "Please analyze the tone of the following email draft, provide suggestions, and rewrite it in a " ++
    squote ++ targetTone ++ squote ++ " tone.\n\nDraft:\n---\n" ++ draft

/-- Modelled from the spec: the analyzeAndRewrite tool descriptor of the
repository variant not included under src/: parameters draft and targetTone,
one provider call per invocation. -/
def analyzeAndRewriteTool : ToolDescriptor :=
  { name := "analyzeAndRewrite",
    description := "Analyzes an email draft and rewrites it to a target tone in one combined step.",
    use_when := none, side_effects := none,
    schema := [{ name := "draft", description := "The email draft.", required := true },
               { name := "targetTone", description := "The desired tone.", required := true }],
    handler := Handler.viaProvider
      (fun args => analyzeAndRewrite_prompt (argOr args "draft") (argOr args "targetTone")) }

/-- The immutable configuration assembled at startup. -/
structure Config where
  token : String
  myNumber : String
  apiKey : String
  port : Nat
deriving Repr, DecidableEq

/-- Startup configuration loading (src/mcp_starter.py lines 18-24 and 105):
the three assert statements fail fast when AUTH_TOKEN, MY_NUMBER or
GOOGLE_API_KEY is unset; PORT falls back to 8088 when unset. -/
def startup (authToken myNumber googleApiKey : Option String) (portVar : Option Nat) :
    Except String Config :=
  match authToken with
  | none => Except.error "Please set AUTH_TOKEN in your .env file"
  | some t =>
      match myNumber with
      | none => Except.error "Please set MY_NUMBER in your .env file"
      | some m =>
          match googleApiKey with
          | none => Except.error "Please set GOOGLE_API_KEY in your .env file"
          | some k => Except.ok { token := t, myNumber := m, apiKey := k, port := portVar.getD 8088 }

/-- Whether the character list needle occurs as a prefix of the haystack. -/
def isPrefixChars : List Char → List Char → Bool
  | [], _ => true
  | _ :: _, [] => false
  | a :: as, b :: bs => a = b && isPrefixChars as bs

/-- Whether the character list needle occurs contiguously inside the haystack. -/
def isInfixChars (needle : List Char) : List Char → Bool
  | [] => needle.isEmpty
  | c :: rest => isPrefixChars needle (c :: rest) || isInfixChars needle rest

/-- Whether the string sub occurs contiguously inside the string s. -/
def containsStr (s sub : String) : Bool := isInfixChars sub.data s.data

lemma load_access_token_self (cfg : String) :
    load_access_token cfg cfg = some { token := cfg, client_id := "puch-client", scopes := ["*"], expires_at := none } := by
  simp [load_access_token]

lemma dispatch_auth (cfg : String) (reg : List ToolDescriptor) (provider : Provider)
    (name : String) (args : List (String × String)) :
    dispatch cfg reg provider ⟨name, args, cfg⟩ =
      match reg.find? (fun t => t.name == name) with
      | none => (InvocationResult.Failure ErrorKind.UnknownTool ("unknown tool " ++ name), 0)
      | some td =>
          match validateArgs td.schema args with
          | Except.error e =>
              (InvocationResult.Failure ErrorKind.InvalidArguments (validationDetail e), 0)
          | Except.ok _ => runHandler provider td.handler args := by
  simp [dispatch, load_access_token]

lemma srcFind_validate (m : String) :
    (srcRegistry m).find? (fun t => t.name == "validate") = some (validateTool m) := rfl

lemma srcFind_analyze (m : String) :
    (srcRegistry m).find? (fun t => t.name == "analyze_email_tone") = some analyzeEmailToneTool := rfl

lemma srcFind_expand (m : String) :
    (srcRegistry m).find? (fun t => t.name == "expand_from_bullets") = some expandFromBulletsTool := rfl

lemma validateHandler_eq_lstrip (m : String) : validateHandler m = lstripPlus m := by
  by_cases h : m = ""
  · subst h; rfl
  · simp [validateHandler, h]

lemma dropLeadingPlus_head (l : List Char) : (dropLeadingPlus l).head? ≠ some '+' := by
  induction l with
  | nil => simp [dropLeadingPlus]
  | cons c cs ih =>
      by_cases h : c = '+'
      · simpa [dropLeadingPlus, h] using ih
      · simp [dropLeadingPlus, h]

/-- C1: load_access_token returns a grant exactly when the presented token
equals the configured secret; the grant carries the fixed synthetic subject
identifier puch-client, the wildcard scope set, and no expiry; every other
presented string yields none. -/
theorem c1_load_access_token_correct (cfg tok : String) :
    ((load_access_token cfg tok).isSome ↔ tok = cfg) ∧
    (∀ g, load_access_token cfg tok = some g →
      g.client_id = "puch-client" ∧ g.scopes = ["*"] ∧ g.expires_at = none) ∧
    (tok ≠ cfg → load_access_token cfg tok = none) := by
  by_cases h : tok = cfg
  · subst h
    refine ⟨by simp [load_access_token], ?_, by simp⟩
    intro g hg
    simp [load_access_token] at hg
    simp [← hg]
  · exact ⟨by simp [load_access_token, h], by simp [load_access_token, h], fun _ => by simp [load_access_token, h]⟩

/-- Witness for C1: the empty string presented against the non-empty
configured secret yields no grant. -/
theorem c1_witness : load_access_token "secret" "" = none :=
  (c1_load_access_token_correct "secret" "").2.2 (by decide)

/-- C10: the startup checks reject only unset values, not empty ones: with
AUTH_TOKEN and MY_NUMBER set to the empty string startup succeeds, an empty
presented token then matches the empty configured secret and yields a grant,
and the validate handler returns the empty string for the empty identity. -/
theorem c10_empty_values :
    startup (some "") (some "") (some "gkey") (some 9000) =
      Except.ok { token := "", myNumber := "", apiKey := "gkey", port := 9000 } ∧
    load_access_token "" "" =
      some { token := "", client_id := "puch-client", scopes := ["*"], expires_at := none } ∧
    validateHandler "" = "" := by
  exact ⟨rfl, by simp [load_access_token], rfl⟩

/-- C9 counterexample: with the three secrets set but PORT unset, startup
succeeds with the default port 8088 instead of failing fast, so a missing
listening port does not cause a startup failure. -/
theorem c9_counterexample :
    startup (some "tok") (some "+15551234567") (some "gkey") none =
      Except.ok { token := "tok", myNumber := "+15551234567", apiKey := "gkey", port := 8088 } := rfl

/-- C9 amended: a missing bearer secret, identity string or provider API key
makes startup fail fast with the corresponding assertion message, while a
missing listening port is tolerated and defaults to 8088. -/
theorem c9_fail_fast :
    (∀ m k p, startup none m k p = Except.error "Please set AUTH_TOKEN in your .env file") ∧
    (∀ t k p, startup (some t) none k p = Except.error "Please set MY_NUMBER in your .env file") ∧
    (∀ t m p, startup (some t) (some m) none p = Except.error "Please set GOOGLE_API_KEY in your .env file") ∧
    (∀ t m k, startup (some t) (some m) (some k) none =
      Except.ok { token := t, myNumber := m, apiKey := k, port := 8088 }) := by
  exact ⟨fun m k p => rfl, fun t k p => rfl, fun t m p => rfl, fun t m k => rfl⟩

/-- C7: the validate tool, invoked with a valid bearer credential and no
arguments, succeeds without any provider call and returns the configured
identity with every leading plus character stripped; stripping the empty
identity gives the empty string, stripping removes a leading plus, and the
result never starts with a plus character. -/
theorem c7_validate_tool (cfg m : String) (provider : Provider) :
    dispatch cfg (srcRegistry m) provider ⟨"validate", [], cfg⟩ =
      (InvocationResult.Success (lstripPlus m), 0) ∧
    lstripPlus "" = "" ∧
    lstripPlus ("+" ++ m) = lstripPlus m ∧
    (lstripPlus m).data.head? ≠ some '+' := by
  refine ⟨?_, rfl, ?_, ?_⟩
  · rw [dispatch_auth, srcFind_validate]
    show (InvocationResult.Success (validateHandler m), 0) = _
    rw [validateHandler_eq_lstrip]
  · show String.mk (dropLeadingPlus ("+" ++ m).data) = _
    rw [String.data_append]
    rfl
  · exact dropLeadingPlus_head m.data

/-- Witness for C7 at a concrete phone-number-like identity. -/
theorem c7_witness :
    dispatch "tok" (srcRegistry "+15551234567") (fun _ => Except.ok "x") ⟨"validate", [], "tok"⟩ =
      (InvocationResult.Success (lstripPlus "+15551234567"), 0) :=
  (c7_validate_tool "tok" "+15551234567" (fun _ => Except.ok "x")).1

/-- C8 counterexample: not every registered tool exposes use-when guidance and
a side-effect note; in this source no registration attaches them at all. -/
theorem c8_counterexample :
    ((srcRegistry "+15551234567").all fun td => td.use_when.isSome && td.side_effects.isSome) = false := rfl

/-- C8 amended: the registry exposes each registered tool's name, description
and parameter schema for discovery, but no tool carries use-when guidance or a
side-effect note: the RichToolDescription model is defined yet never attached
to a registration. -/
theorem c8_introspection (m : String) :
    (srcRegistry m).map (fun td => (td.name, td.description)) =
      [("validate", ""),
       ("analyze_email_tone", "Analyzes the tone of a draft email and provides feedback."),
       ("rewrite_email", "Rewrites an email draft to match a specific target tone."),
       ("shorten_email", "Shortens an email draft to make it more concise."),
       ("expand_from_bullets", "Expands a list of bullet points into a full, well-formatted email.")] ∧
    (srcRegistry m).map (fun td => (td.name, td.schema.map ParameterSpec.name)) =
      [("validate", []), ("analyze_email_tone", ["email_draft"]),
       ("rewrite_email", ["email_draft", "target_tone"]),
       ("shorten_email", ["email_draft"]),
       ("expand_from_bullets", ["bullet_points", "goal"])] ∧
    ((srcRegistry m).all fun td => td.use_when.isNone && td.side_effects.isNone) = true := by
  exact ⟨rfl, rfl, rfl⟩

/-- C2: whenever the presented credential yields no grant from
load_access_token, dispatch fails with AuthenticationError, the named tool's
handler is never invoked and zero provider calls are made, for every registry,
provider, tool name and argument map, including the reserved validate tool. -/
theorem c2_auth_rejects_before_handler (cfg cred : String)
    (h : load_access_token cfg cred = none)
    (registry : List ToolDescriptor) (provider : Provider)
    (name : String) (args : List (String × String)) :
    dispatch cfg registry provider ⟨name, args, cred⟩ =
      (InvocationResult.Failure ErrorKind.AuthenticationError "invalid bearer token", 0) := by
  simp [dispatch, h]

/-- Witness for C2: a wrong token against the validate tool is rejected with
an authentication failure and zero provider calls. -/
theorem c2_witness :
    dispatch "secret" (srcRegistry "+15551234567") (fun _ => Except.ok "x") ⟨"validate", [], "wrong"⟩ =
      (InvocationResult.Failure ErrorKind.AuthenticationError "invalid bearer token", 0) :=
  c2_auth_rejects_before_handler "secret" "wrong" (by decide)
    (srcRegistry "+15551234567") (fun _ => Except.ok "x") "validate" []

/-- C3: every provider exception is caught by make_gemini_call and converted
into an internal error whose message is derived from the exception's textual
representation, and at the dispatcher boundary the invocation surfaces as a
structured Failure with kind InternalError and the provider call counted. -/
theorem c3_provider_failure_wrapped (e : String) :
    (∀ (provider : Provider) (prompt : String), provider prompt = Except.error e →
      make_gemini_call provider prompt =
        Except.error { code := INTERNAL_ERROR, message := "Failed to process with Google AI: " ++ e }) ∧
    (∀ cfg m draft, dispatch cfg (srcRegistry m) (fun _ => Except.error e)
        ⟨"analyze_email_tone", [("email_draft", draft)], cfg⟩ =
      (InvocationResult.Failure ErrorKind.InternalError ("Failed to process with Google AI: " ++ e), 1)) := by
  constructor
  · intro provider prompt h
    simp [make_gemini_call, h]
  · intro cfg m draft
    rw [dispatch_auth, srcFind_analyze]
    rfl

/-- Witness for C3: a timeout exception is wrapped into the internal error
message built from its representation. -/
theorem c3_witness :
    make_gemini_call (fun _ => Except.error "ReadTimeout()") "p" =
      Except.error { code := INTERNAL_ERROR,
                     message := "Failed to process with Google AI: " ++ "ReadTimeout()" } :=
  (c3_provider_failure_wrapped "ReadTimeout()").1 (fun _ => Except.error "ReadTimeout()") "p" rfl

/-- C4 counterexample: when the underlying exception's representation contains
the configured provider API key (here KEY123), the InternalError message
surfaced at the dispatcher boundary contains that key, so the error detail is
not secret-free for every underlying exception value. -/
theorem c4_counterexample :
    dispatch "tok" (srcRegistry "+1") (fun _ => Except.error "PermissionDenied: API key KEY123 invalid")
        ⟨"analyze_email_tone", [("email_draft", "hi")], "tok"⟩ =
      (InvocationResult.Failure ErrorKind.InternalError
        "Failed to process with Google AI: PermissionDenied: API key KEY123 invalid", 1) ∧
    containsStr "Failed to process with Google AI: PermissionDenied: API key KEY123 invalid" "KEY123" = true := by
  exact ⟨by rw [dispatch_auth, srcFind_analyze]; rfl, by decide⟩

/-- C4 amended: the InternalError message is exactly the fixed prefix followed
by the exception's representation and nothing else, so it contains a given
secret only when that combined string does; the code performs no redaction, and
in particular any exception representation free of the secrets yields a
secret-free error detail. -/
theorem c4_no_secret_added (cfg m draft e secret : String)
    (h : containsStr ("Failed to process with Google AI: " ++ e) secret = false) :
    ∃ msg, dispatch cfg (srcRegistry m) (fun _ => Except.error e)
        ⟨"analyze_email_tone", [("email_draft", draft)], cfg⟩ =
        (InvocationResult.Failure ErrorKind.InternalError msg, 1) ∧
      containsStr msg secret = false := by
  refine ⟨"Failed to process with Google AI: " ++ e, ?_, h⟩
  rw [dispatch_auth, srcFind_analyze]
  rfl

/-- Witness for C4 amended: a plain timeout representation leaks neither the
API key KEY123 nor the bearer secret of this scenario. -/
theorem c4_witness :
    ∃ msg, dispatch "tok" (srcRegistry "+1") (fun _ => Except.error "ReadTimeout()")
        ⟨"analyze_email_tone", [("email_draft", "hi")], "tok"⟩ =
        (InvocationResult.Failure ErrorKind.InternalError msg, 1) ∧
      containsStr msg "KEY123" = false :=
  c4_no_secret_added "tok" "+1" "hi" "ReadTimeout()" "KEY123" (by decide)

/-- C5: argument validation is strict and runs before the handler: a missing
required parameter yields an InvalidArguments failure with zero provider calls
(shown for the cited tools analyze_email_tone and expand_from_bullets), and an
argument name not declared in the schema is rejected rather than passed
through, again with zero provider calls. -/
theorem c5_strict_validation (cfg m : String) (provider : Provider)
    (args : List (String × String)) :
    (args.lookup "email_draft" = none →
      dispatch cfg (srcRegistry m) provider ⟨"analyze_email_tone", args, cfg⟩ =
        (InvocationResult.Failure ErrorKind.InvalidArguments
          (validationDetail (ValidationError.MissingArgument "email_draft")), 0)) ∧
    (∀ v, args.lookup "bullet_points" = some v → args.lookup "goal" = none →
      dispatch cfg (srcRegistry m) provider ⟨"expand_from_bullets", args, cfg⟩ =
        (InvocationResult.Failure ErrorKind.InvalidArguments
          (validationDetail (ValidationError.MissingArgument "goal")), 0)) ∧
    (∀ v w extraKey, extraKey ≠ "email_draft" →
      dispatch cfg (srcRegistry m) provider
          ⟨"analyze_email_tone", [("email_draft", v), (extraKey, w)], cfg⟩ =
        (InvocationResult.Failure ErrorKind.InvalidArguments
          (validationDetail (ValidationError.UnknownArgument extraKey)), 0)) := by
  refine ⟨?_, ?_, ?_⟩
  · intro h
    rw [dispatch_auth, srcFind_analyze]
    simp [validateArgs, firstMissing, analyzeEmailToneTool, h]
  · intro v h1 h2
    rw [dispatch_auth, srcFind_expand]
    simp [validateArgs, firstMissing, expandFromBulletsTool, h1, h2]
  · intro v w extraKey hk
    have hbk : (("email_draft" : String) == extraKey) = false := by
      simp only [beq_eq_false_iff_ne]
      exact fun h => hk h.symm
    rw [dispatch_auth, srcFind_analyze]
    simp [validateArgs, firstMissing, firstUnknown, analyzeEmailToneTool, hbk, List.lookup]

/-- Witness for C5: the empty argument map against analyze_email_tone is
rejected for the missing required draft with zero provider calls. -/
theorem c5_witness :
    dispatch "tok" (srcRegistry "+1") (fun _ => Except.ok "x") ⟨"analyze_email_tone", [], "tok"⟩ =
      (InvocationResult.Failure ErrorKind.InvalidArguments
        (validationDetail (ValidationError.MissingArgument "email_draft")), 0) :=
  (c5_strict_validation "tok" "+1" (fun _ => Except.ok "x") []).1 rfl

/-- C6: the analyzeAndRewrite tool, invoked with the scenario draft and target
tone against a provider stub returning a fixed string, succeeds with exactly
one provider call and returns the stub's fixed string verbatim; its prompt
template embeds both the draft and the tone. -/
theorem c6_analyzeAndRewrite (cfg m fixed : String) :
    dispatch cfg (srcRegistry m ++ [analyzeAndRewriteTool]) (fun _ => Except.ok fixed)
        ⟨"analyzeAndRewrite", [("draft", "Hey, send me the file"), ("targetTone", "Formal")], cfg⟩ =
      (InvocationResult.Success fixed, 1) ∧
    containsStr (analyzeAndRewrite_prompt "Hey, send me the file" "Formal") "Hey, send me the file" = true ∧
    containsStr (analyzeAndRewrite_prompt "Hey, send me the file" "Formal") "Formal" = true := by
  refine ⟨?_, by decide, by decide⟩
  rw [dispatch_auth]
  rfl
